import Mathlib

/-!
Shallow embedding of the "AddressInsightsPipeline" of this repository.

The repository contains three variants of the same single-page component,
each with a `handleAddressSubmit` entry point:

* `AppMain`    — `src/src/App.tsx`, first document (full pipeline:
  validate → verify API keys → geocode → map tile → solar insights).
* `AppMock`    — `src/src/App.tsx`, second document (mock pipeline:
  verify key via a static-map probe → map tile → fixed mock solar data;
  no address validation, no geocoding).
* `AppVerbose` — `src/unnamed/part_000` (same control flow as `AppMain`
  with more detailed error messages and axios-error branching).

Network interactions are modelled by an environment record holding the
response of each endpooint; each submission returns the terminal UI state
together with the list of network requests it issued, in order.
JavaScript numbers are modelled as exact rationals (`ℚ`); `Math.round x`
is Mathlib's `round` (both are `⌊x + 1/2⌋`).
-/

/-- JavaScript `String.prototype.trim` whitespace set: ASCII whitespace,
NBSP, BOM, the Unicode space separators and line/paragraph separators. -/
def jsIsWhitespace (c : Char) : Bool :=
  ([9, 10, 11, 12, 13, 32, 0xA0, 0x1680, 0x2028, 0x2029,
    0x202F, 0x205F, 0x3000, 0xFEFF] : List Nat).contains c.toNat
  || (0x2000 ≤ c.toNat && c.toNat ≤ 0x200A)

/-- JavaScript `String.prototype.trim`: drop leading and trailing whitespace. -/
def jsTrim (s : String) : String :=
  ⟨((s.data.dropWhile jsIsWhitespace).reverse.dropWhile jsIsWhitespace).reverse⟩

/-- JavaScript string `||`: the left operand unless it is falsy (empty). -/
def jsOr (a b : String) : String :=
  if a = "" then b else a

/-- JavaScript `x?.f || y` where `x?.f` may be `undefined`. -/
def jsOrOpt (a : Option String) (b : String) : String :=
  match a with
  | some s => jsOr s b
  | none => b

/-- Characters `encodeURIComponent` leaves unescaped:
alphanumerics and `- _ . ! ~ * ' ( )`. -/
def isUriUnreserved (c : Char) : Bool :=
  c.isAlphanum || (['-', '_', '.', '!', '~', '*', '\'', '(', ')'] : List Char).contains c

/-- Uppercase hexadecimal digit (for percent-escapes). -/
def hexDigit (n : Nat) : Char :=
  if n < 10 then Char.ofNat (48 + n) else Char.ofNat (55 + n)

/-- UTF-8 encoding of a single character, as its list of byte values. -/
def utf8Bytes (c : Char) : List Nat :=
  let n := c.toNat
  if n < 0x80 then [n]
  else if n < 0x800 then
    [0xC0 + n / 0x40, 0x80 + n % 0x40]
  else if n < 0x10000 then
    [0xE0 + n / 0x1000, 0x80 + (n / 0x40) % 0x40, 0x80 + n % 0x40]
  else
    [0xF0 + n / 0x40000, 0x80 + (n / 0x1000) % 0x40, 0x80 + (n / 0x40) % 0x40,
     0x80 + n % 0x40]

/-- Percent-escape (a three-character string) of one byte value. -/
def percentByte (n : Nat) : String :=
  ⟨['%', hexDigit (n / 16), hexDigit (n % 16)]⟩

/-- JavaScript `encodeURIComponent`: unreserved characters pass through,
every other character is percent-escaped byte-by-byte in UTF-8. -/
def encodeURIComponent (s : String) : String :=
  String.join (s.data.map fun c =>
    if isUriUnreserved c then String.singleton c
    else String.join ((utf8Bytes c).map percentByte))

/-- WHATWG fetch `Response.ok`: HTTP status in the range 200–299. -/
def fetchOk (status : Nat) : Bool :=
  200 ≤ status && status ≤ 299

/-- The `solarPotential` object of the solar-insights response
(`solarResponse.data.solarPotential`). -/
structure SolarPotential where
  maxArrayPanelsCount : ℚ
  panelCapacityWatts : ℚ
  yearlyEnergyDcKwh : ℚ
  sunshineQuantiles : List ℚ
  maxArrayAreaMeters2 : ℚ
  deriving DecidableEq, Repr

/-- The derived `solarData` record built by the full-pipeline variants. -/
structure SolarData where
  yearlyGeneration : ℚ
  potentialSavings : ℤ
  annualSunshine : ℤ
  roofSpace : ℤ
  numberOfPanels : ℚ
  address : String
  deriving DecidableEq, Repr

/-- JavaScript `Array.prototype.reduce((a, b) => a + b)` without an initial
value: throws `TypeError` on an empty array, otherwise folds from the head. -/
def jsReduceAdd : List ℚ → Except String ℚ
  | [] => .error "Reduce of empty array with no initial value"
  | a :: rest => .ok (rest.foldl (· + ·) a)

/-- The `solarData` object literal of the full-pipeline variants
(`App.tsx` lines 108–115, `part_000` lines 140–147), as a function of the
provider payload and the formatted address from the geocode step. The
`annualSunshine` reduce throws on an empty quantile list, which aborts the
whole derivation. -/
def deriveSolarData (sp : SolarPotential) (formattedAddress : String) :
    Except String SolarData :=
  match jsReduceAdd sp.sunshineQuantiles with
  | .error m => .error m
  | .ok total =>
    .ok
      { yearlyGeneration :=
          sp.maxArrayPanelsCount * sp.panelCapacityWatts * sp.yearlyEnergyDcKwh
        potentialSavings := round (sp.yearlyEnergyDcKwh * 0.12 * 20)
        annualSunshine :=
          round (total / (sp.sunshineQuantiles.length : ℚ) * 365 * 24)
        roofSpace := round sp.maxArrayAreaMeters2
        numberOfPanels := sp.maxArrayPanelsCount
        address := formattedAddress }

/-- Coordinates `geometry.location` of one geocoding result. -/
structure GeoLocation where
  lat : ℚ
  lng : ℚ
  deriving DecidableEq, Repr

/-- One element of the geocoding response's `results` array. -/
structure GeoResult where
  location : GeoLocation
  formatted_address : String
  deriving DecidableEq, Repr

/-- Body of the geocoding response (`geocodeResponse.data`). -/
structure GeocodeData where
  status : String
  results : List GeoResult
  deriving DecidableEq, Repr

/-- Outcome of one axios request, as the pipeline observes it:
either a 2xx response with a parsed body, or a thrown `AxiosError` with a
response attached (`error.response` present: HTTP status, the optional
`data.error.message` field, `statusText`, and the error's own `message`),
or a thrown `AxiosError` with no response (`error.request` present,
covering connectivity failures and timeouts; `message` is the axios
message for that condition). -/
inductive AxiosOutcome (α : Type) where
  | ok (data : α)
  | respError (status : Nat) (dataErrMessage : Option String)
      (statusText : String) (message : String)
  | reqError (message : String)
  deriving DecidableEq, Repr

/-- A value thrown inside a submission's `try` block: a plain `Error`
(carrying its message) or an axios error, on which the `catch` blocks
branch via `axios.isAxiosError` / `error.response` / `error.request`. -/
inductive Thrown where
  | plain (message : String)
  | axiosResp (status : Nat) (dataErrMessage : Option String)
      (statusText : String) (message : String)
  | axiosReq (message : String)
  deriving DecidableEq, Repr

/-- Message `error.message` of a thrown value (`error instanceof Error` holds for
every value the pipeline can throw). -/
def Thrown.message : Thrown → String
  | .plain m => m
  | .axiosResp _ _ _ m => m
  | .axiosReq m => m

/-- One network request issued by a submission, recorded in order. -/
inductive Req where
  | probeGeocode
  | probeSolar
  | geocode (encodedAddress : String)
  | mapFetch (url : String)
  | solarInsights (lat lng : ℚ)
  | mapProbe
  deriving DecidableEq, Repr

/-- Network environment of a full-pipeline submission: the outcome of each
endpoint the submission may consult. `mapFail` marks a map-tile `fetch`
that throws (no response); otherwise `mapStatus`/`mapStatusText` describe
the map-tile HTTP response. -/
structure Env where
  probeGeo : AxiosOutcome GeocodeData
  probeSolar : AxiosOutcome Unit
  geocode : AxiosOutcome GeocodeData
  mapFail : Bool
  mapStatus : Nat
  mapStatusText : String
  solar : AxiosOutcome SolarPotential
  deriving Repr

/-- UI state of the full-pipeline variants: the four `useState` cells.
`mapUrl = ""` is the unset (falsy) value, matching `useState('')`. -/
structure PipelineState where
  loading : Bool
  mapUrl : String
  solarData : Option SolarData
  error : Option String
  deriving DecidableEq, Repr

/-- Initial React state of the full-pipeline variants. -/
def initState : PipelineState :=
  { loading := false, mapUrl := "", solarData := none, error := none }

/-- Modelled from the spec: the Maps API key, a build-time configuration
value (`import.meta.env.VITE_GOOGLE_MAPS_API_KEY`), external to the
repository. -/
def mapsApiKey : String := "MAPS_API_KEY"

/-- The `staticMapUrl` template string of the full-pipeline variants
(zoom 18, size 600x400, satellite). `toString` on `ℚ` stands in for
JavaScript number rendering; no property inspects the coordinate text. -/
def staticMapUrl (lat lng : ℚ) : String :=
  "https://maps.googleapis.com/maps/api/staticmap?center=" ++ toString lat
    ++ "," ++ toString lng
    ++ "&zoom=18&size=600x400&maptype=satellite&key=" ++ mapsApiKey

namespace AppMain

/-- Function `verifyApiKeys` of `src/src/App.tsx` (first document, lines 12–48):
probe the geocoder with a fixed address, reject `REQUEST_DENIED`, then
probe the solar `dataLayers:get` endpoint. An axios error with a response
is re-thrown as `API verification failed: ...`; anything else is
re-thrown unchanged. -/
def verifyApiKeys (env : Env) : Except Thrown Unit × List Req :=
  match env.probeGeo with
  | .ok d =>
    if d.status = "REQUEST_DENIED" then
      (.error (.plain "Maps API key is invalid or missing required permissions"),
       [.probeGeocode])
    else
      match env.probeSolar with
      | .ok _ => (.ok (), [.probeGeocode, .probeSolar])
      | .respError _ dm _ msg =>
        (.error (.plain ("API verification failed: " ++ jsOrOpt dm msg)),
         [.probeGeocode, .probeSolar])
      | .reqError msg => (.error (.axiosReq msg), [.probeGeocode, .probeSolar])
  | .respError _ dm _ msg =>
    (.error (.plain ("API verification failed: " ++ jsOrOpt dm msg)),
     [.probeGeocode])
  | .reqError msg => (.error (.axiosReq msg), [.probeGeocode])

/-- The `try` body of `handleAddressSubmit` (lines 56–117): validate the
trimmed address, verify keys, geocode (the raw address URL-escaped),
fetch the map tile, then request and derive solar insights. Returns the
state after the body (including a `setMapUrl` that happened before a later
throw), the thrown value if any, and the requests issued. -/
def runBody (env : Env) (address : String) (s : PipelineState) :
    PipelineState × Option Thrown × List Req :=
  if jsTrim address = "" then
    (s, some (.plain "Please enter a valid address"), [])
  else
    match verifyApiKeys env with
    | (.error t, log) => (s, some t, log)
    | (.ok _, log1) =>
      let log2 := log1 ++ [.geocode (encodeURIComponent address)]
      match env.geocode with
      | .respError st dm stx msg => (s, some (.axiosResp st dm stx msg), log2)
      | .reqError msg => (s, some (.axiosReq msg), log2)
      | .ok d =>
        if d.status = "ZERO_RESULTS" then
          (s, some (.plain "Address not found. Please check the address and try again."),
           log2)
        else if d.status ≠ "OK" then
          (s, some (.plain ("Geocoding error: " ++ d.status)), log2)
        else
          match d.results with
          | [] =>
            -- `results[0].geometry` on an empty list: TypeError at runtime
            (s, some (.plain "Cannot read properties of undefined (reading geometry)"),
             log2)
          | r :: _ =>
            let url := staticMapUrl r.location.lat r.location.lng
            let log3 := log2 ++ [.mapFetch url]
            if env.mapFail then
              (s, some (.plain "Failed to fetch"), log3)
            else if ¬ fetchOk env.mapStatus then
              (s, some (.plain "Failed to load map image"), log3)
            else
              let s2 := { s with mapUrl := url }
              let log4 := log3 ++ [.solarInsights r.location.lat r.location.lng]
              match env.solar with
              | .respError st dm stx msg => (s2, some (.axiosResp st dm stx msg), log4)
              | .reqError msg => (s2, some (.axiosReq msg), log4)
              | .ok sp =>
                match deriveSolarData sp r.formatted_address with
                | .error m => (s2, some (.plain m), log4)
                | .ok data => ({ s2 with solarData := some data }, none, log4)

/-- Function `handleAddressSubmit` of `src/src/App.tsx` (first document,
lines 50–123): reset all four state cells, run the body, convert a thrown
value to its message in `catch`, and clear `loading` in every outcome. -/
def handleAddressSubmit (env : Env) (address : String) (_s : PipelineState) :
    PipelineState × List Req :=
  let s1 : PipelineState :=
    { loading := true, error := none, solarData := none, mapUrl := "" }
  match runBody env address s1 with
  | (s2, none, log) => ({ s2 with loading := false }, log)
  | (s2, some t, log) =>
    ({ s2 with error := some (Thrown.message t), loading := false }, log)

end AppMain

namespace AppVerbose

/-- Function `verifyApiKeys` of `src/unnamed/part_000` (lines 12–67): same probes
as `AppMain.verifyApiKeys`, but an axios error with a response is wrapped
as `API verification failed (status): ...` (falling back through
`data.error?.message || statusText || message`) and an axios error
without a response becomes a fixed network-error message. -/
def verifyApiKeys (env : Env) : Except Thrown Unit × List Req :=
  match env.probeGeo with
  | .ok d =>
    if d.status = "REQUEST_DENIED" then
      (.error (.plain "Maps API key is invalid or missing required permissions"),
       [.probeGeocode])
    else
      match env.probeSolar with
      | .ok _ => (.ok (), [.probeGeocode, .probeSolar])
      | .respError st dm stx msg =>
        (.error (.plain ("API verification failed (" ++ toString st ++ "): "
          ++ jsOrOpt dm (jsOr stx msg))), [.probeGeocode, .probeSolar])
      | .reqError _ =>
        (.error (.plain ("Network error: Unable to reach Google APIs. "
          ++ "Please check your internet connection and API key configuration.")),
         [.probeGeocode, .probeSolar])
  | .respError st dm stx msg =>
    (.error (.plain ("API verification failed (" ++ toString st ++ "): "
      ++ jsOrOpt dm (jsOr stx msg))), [.probeGeocode])
  | .reqError _ =>
    (.error (.plain ("Network error: Unable to reach Google APIs. "
      ++ "Please check your internet connection and API key configuration.")),
     [.probeGeocode])

/-- The `try` body of `handleAddressSubmit` in `src/unnamed/part_000`
(lines 75–149): same control flow as `AppMain.runBody`; the map-tile
failure message additionally carries the HTTP status and status text. -/
def runBody (env : Env) (address : String) (s : PipelineState) :
    PipelineState × Option Thrown × List Req :=
  if jsTrim address = "" then
    (s, some (.plain "Please enter a valid address"), [])
  else
    match verifyApiKeys env with
    | (.error t, log) => (s, some t, log)
    | (.ok _, log1) =>
      let log2 := log1 ++ [.geocode (encodeURIComponent address)]
      match env.geocode with
      | .respError st dm stx msg => (s, some (.axiosResp st dm stx msg), log2)
      | .reqError msg => (s, some (.axiosReq msg), log2)
      | .ok d =>
        if d.status = "ZERO_RESULTS" then
          (s, some (.plain "Address not found. Please check the address and try again."),
           log2)
        else if d.status ≠ "OK" then
          (s, some (.plain ("Geocoding error: " ++ d.status)), log2)
        else
          match d.results with
          | [] =>
            (s, some (.plain "Cannot read properties of undefined (reading geometry)"),
             log2)
          | r :: _ =>
            let url := staticMapUrl r.location.lat r.location.lng
            let log3 := log2 ++ [.mapFetch url]
            if env.mapFail then
              (s, some (.plain "Failed to fetch"), log3)
            else if ¬ fetchOk env.mapStatus then
              (s, some (.plain ("Failed to load map image: "
                ++ toString env.mapStatus ++ " " ++ env.mapStatusText)), log3)
            else
              let s2 := { s with mapUrl := url }
              let log4 := log3 ++ [.solarInsights r.location.lat r.location.lng]
              match env.solar with
              | .respError st dm stx msg => (s2, some (.axiosResp st dm stx msg), log4)
              | .reqError msg => (s2, some (.axiosReq msg), log4)
              | .ok sp =>
                match deriveSolarData sp r.formatted_address with
                | .error m => (s2, some (.plain m), log4)
                | .ok data => ({ s2 with solarData := some data }, none, log4)

/-- The `catch` block of `handleAddressSubmit` in `src/unnamed/part_000`
(lines 150–168): axios errors with a response become
`API Error (status): ...`, axios errors without a response a fixed
network-error message, other errors surface their own message. -/
def catchMessage : Thrown → String
  | .axiosResp st dm stx _ =>
    "API Error (" ++ toString st ++ "): " ++ jsOrOpt dm (jsOr stx "Server error")
  | .axiosReq _ =>
    "Network Error: Unable to reach Google APIs. Please check your internet "
      ++ "connection and ensure the APIs are enabled in your Google Cloud Console."
  | .plain m => m

/-- Function `handleAddressSubmit` of `src/unnamed/part_000` (lines 69–170):
reset all four state cells, run the body, convert a thrown value through
`catchMessage`, and clear `loading` in every outcome. -/
def handleAddressSubmit (env : Env) (address : String) (_s : PipelineState) :
    PipelineState × List Req :=
  let s1 : PipelineState :=
    { loading := true, error := none, solarData := none, mapUrl := "" }
  match runBody env address s1 with
  | (s2, none, log) => ({ s2 with loading := false }, log)
  | (s2, some t, log) =>
    ({ s2 with error := some (catchMessage t), loading := false }, log)

end AppVerbose

/-- The fixed mock record set by the mock variant
(`src/src/App.tsx`, second document, lines 239–245); all fields are
string literals there. -/
structure MockSolarData where
  yearlyGeneration : String
  potentialSavings : String
  annualSunshine : String
  roofSpace : String
  numberOfPanels : String
  deriving DecidableEq, Repr

namespace AppMock

/-- UI state of the mock variant (`solarData` holds the mock record). -/
structure State where
  loading : Bool
  mapUrl : String
  solarData : Option MockSolarData
  error : Option String
  deriving DecidableEq, Repr

/-- Initial React state of the mock variant. -/
def initState : State :=
  { loading := false, mapUrl := "", solarData := none, error := none }

/-- Network environment of a mock-variant submission: whether the
verification probe's `fetch` throws, its HTTP status otherwise, and the
same two observations for the map-tile fetch. -/
structure Env where
  probeFail : Bool
  probeStatus : Nat
  mapFail : Bool
  mapStatus : Nat
  deriving DecidableEq, Repr

/-- The `mockSolarData` literal (lines 239–245). -/
def mockSolarData : MockSolarData :=
  { yearlyGeneration := "12000", potentialSavings := "25000",
    annualSunshine := "2800", roofSpace := "85", numberOfPanels := "24" }

/-- Function `verifyApiKey` of the mock variant (lines 196–212): fetch a minimal
static-map tile; any throw or non-2xx response is swallowed by its own
`catch`, which returns `false`. -/
def verifyApiKey (env : Env) : Bool × List Req :=
  (!env.probeFail && fetchOk env.probeStatus, [.mapProbe])

/-- Function `handleAddressSubmit` of the mock variant (`src/src/App.tsx`, second
document, lines 214–252): resets only `loading` and `error`, probes the
key, fetches a map tile centered on the URL-escaped raw address (no
validation, no geocoding), then installs the fixed mock solar record. -/
def handleAddressSubmit (env : Env) (address : String) (s : State) :
    State × List Req :=
  let s1 : State := { s with loading := true, error := none }
  let (keyOk, log0) := verifyApiKey env
  if !keyOk then
    ({ s1 with
        error := some "Invalid API key or API access is restricted"
        loading := false }, log0)
  else
    let url := "https://maps.googleapis.com/maps/api/staticmap?center="
      ++ encodeURIComponent address
      ++ "&zoom=18&size=600x400&maptype=satellite&key=" ++ mapsApiKey
    let log1 := log0 ++ [.mapFetch url]
    if env.mapFail then
      ({ s1 with error := some "Failed to fetch", loading := false }, log1)
    else if ¬ fetchOk env.mapStatus then
      ({ s1 with error := some "Failed to load map image", loading := false }, log1)
    else
      ({ s1 with
          mapUrl := url
          solarData := some mockSolarData
          loading := false }, log1)

end AppMock

/-!
Spec-side formulas (from the spec text, for refinement comparison) and
concrete sample inputs used by witnesses and counterexamples.
-/

/-- Modelled from the spec: `potentialSavingsUSD = round(yearlyEnergyDcKwh
* 0.12 * 20)` — fixed 20-year horizon, fixed rate. -/
def spec_potentialSavingsUSD (yearlyEnergyDcKwh : ℚ) : ℤ :=
  round (yearlyEnergyDcKwh * 0.12 * 20)

/-- Arithmetic mean of a list of rationals (the spec's `mean`). -/
def mean (l : List ℚ) : ℚ :=
  l.sum / (l.length : ℚ)

/-- Modelled from the spec: `annualSunshineHours =
round(mean(sunshineQuantiles) * 365 * 24)`. -/
def spec_annualSunshineHours (sunshineQuantiles : List ℚ) : ℤ :=
  round (mean sunshineQuantiles * 365 * 24)

/-- Modelled from the spec: `yearlyGenerationKWh = maxArrayPanelsCount *
panelCapacityWatts * yearlyEnergyDcKwh`. -/
def spec_yearlyGenerationKWh (maxArrayPanelsCount panelCapacityWatts
    yearlyEnergyDcKwh : ℚ) : ℚ :=
  maxArrayPanelsCount * panelCapacityWatts * yearlyEnergyDcKwh

/-- Sample solar payload (`yearlyEnergyDcKwh = 1000`, quantiles
`[10, 20, 30, 40]`, the spec's two worked examples). -/
def sampleSP : SolarPotential :=
  { maxArrayPanelsCount := 20, panelCapacityWatts := 400,
    yearlyEnergyDcKwh := 1000, sunshineQuantiles := [10, 20, 30, 40],
    maxArrayAreaMeters2 := 85 }

/-- Sample geocoding result. -/
def geoResult0 : GeoResult :=
  { location := { lat := 32, lng := -110 },
    formatted_address := "4711 N Via Zurburan, Tucson, AZ" }

/-- Sample geocoding response with one result. -/
def okGeo : GeocodeData :=
  { status := "OK", results := [geoResult0] }

/-- Sample all-success response of the verification probe. -/
def probeGeoOk : GeocodeData := { status := "OK", results := [] }

/-- Environment in which every endpoint succeeds. -/
def envOk : Env :=
  { probeGeo := .ok probeGeoOk, probeSolar := .ok (), geocode := .ok okGeo,
    mapFail := false, mapStatus := 200, mapStatusText := "OK",
    solar := .ok sampleSP }

/-- Folding `(+)` from an initial value adds the initial value to the sum. -/
theorem foldl_add_eq_add_sum (init : ℚ) (l : List ℚ) :
    l.foldl (· + ·) init = init + l.sum := by
  induction l generalizing init with
  | nil => simp
  | cons a l ih => simp [List.foldl_cons, ih, List.sum_cons]; ring

/-- Shape of a full-pipeline body run: the body never writes `error`; it
writes `solarData` exactly when it does not throw. -/
theorem mainRunBody_cases (env : Env) (a : String) (s : PipelineState)
    (s2 : PipelineState) (th : Option Thrown) (log : List Req)
    (h : AppMain.runBody env a s = (s2, th, log)) :
    s2.error = s.error ∧
    (th = none → ∃ d, s2.solarData = some d) ∧
    (th ≠ none → s2.solarData = s.solarData) := by
  unfold AppMain.runBody AppMain.verifyApiKeys at h
  repeat' split at h
  all_goals obtain ⟨rfl, rfl, rfl⟩ := h
  all_goals simp_all

/-- Shape of a verbose-variant body run: the body never writes `error`; it
writes `solarData` exactly when it does not throw. -/
theorem verboseRunBody_cases (env : Env) (a : String) (s : PipelineState)
    (s2 : PipelineState) (th : Option Thrown) (log : List Req)
    (h : AppVerbose.runBody env a s = (s2, th, log)) :
    s2.error = s.error ∧
    (th = none → ∃ d, s2.solarData = some d) ∧
    (th ≠ none → s2.solarData = s.solarData) := by
  unfold AppVerbose.runBody AppVerbose.verifyApiKeys at h
  repeat' split at h
  all_goals obtain ⟨rfl, rfl, rfl⟩ := h
  all_goals simp_all

/-!
Claim theorems.
-/

/-- C5: for every solar-provider payload the derived `potentialSavings`
equals the spec formula `round(yearlyEnergyDcKwh * 0.12 * 20)`; in
particular `yearlyEnergyDcKwh = 1000` yields `2400`. -/
theorem c5_potentialSavings_spec (sp : SolarPotential) (fa : String)
    (d : SolarData) (h : deriveSolarData sp fa = .ok d) :
    d.potentialSavings = spec_potentialSavingsUSD sp.yearlyEnergyDcKwh ∧
    (sp.yearlyEnergyDcKwh = 1000 → d.potentialSavings = 2400) := by
  unfold deriveSolarData at h
  cases hq : jsReduceAdd sp.sunshineQuantiles with
  | error m => simp [hq] at h
  | ok t =>
    simp only [hq, Except.ok.injEq] at h
    subst h
    refine ⟨rfl, fun he => ?_⟩
    show round (sp.yearlyEnergyDcKwh * 0.12 * 20) = 2400
    rw [he]
    norm_num [round_eq]

/-- The record `deriveSolarData` produces on `sampleSP`. -/
def sampleDerived : SolarData :=
  { yearlyGeneration := 8000000, potentialSavings := 2400,
    annualSunshine := 219000, roofSpace := 85, numberOfPanels := 20,
    address := "A" }

/-- Witness for C5 at `sampleSP` (whose `yearlyEnergyDcKwh` is 1000). -/
theorem c5_witness :
    deriveSolarData sampleSP "A" = .ok sampleDerived ∧
    (sampleDerived.potentialSavings = spec_potentialSavingsUSD sampleSP.yearlyEnergyDcKwh ∧
     (sampleSP.yearlyEnergyDcKwh = 1000 → sampleDerived.potentialSavings = 2400)) :=
  ⟨by norm_num [deriveSolarData, jsReduceAdd, sampleSP, sampleDerived, round_eq],
   c5_potentialSavings_spec sampleSP "A" sampleDerived
     (by norm_num [deriveSolarData, jsReduceAdd, sampleSP, sampleDerived, round_eq])⟩

/-- C6: for every payload with a non-empty quantile list the derived
`annualSunshine` equals the spec formula
`round(mean(sunshineQuantiles) * 365 * 24)`; quantiles `[10, 20, 30, 40]`
yield `219000`. -/
theorem c6_annualSunshine_spec (sp : SolarPotential) (fa : String)
    (d : SolarData) (h : deriveSolarData sp fa = .ok d) :
    d.annualSunshine = spec_annualSunshineHours sp.sunshineQuantiles ∧
    (sp.sunshineQuantiles = [10, 20, 30, 40] → d.annualSunshine = 219000) := by
  unfold deriveSolarData jsReduceAdd at h
  cases hq : sp.sunshineQuantiles with
  | nil => simp [hq] at h
  | cons q qs =>
    simp only [hq, Except.ok.injEq] at h
    subst h
    have hsum : qs.foldl (· + ·) q = (q :: qs).sum := by
      simp [foldl_add_eq_add_sum]
    constructor
    · unfold spec_annualSunshineHours mean
      simp [hsum]
    · intro he
      simp only [List.cons.injEq] at he
      obtain ⟨rfl, rfl⟩ := he
      norm_num [List.foldl, round_eq]

/-- Witness for C6 at `sampleSP` (whose quantiles are `[10, 20, 30, 40]`). -/
theorem c6_witness :
    deriveSolarData sampleSP "A" = .ok sampleDerived ∧
    (sampleDerived.annualSunshine = spec_annualSunshineHours sampleSP.sunshineQuantiles ∧
     (sampleSP.sunshineQuantiles = [10, 20, 30, 40] →
      sampleDerived.annualSunshine = 219000)) :=
  ⟨by norm_num [deriveSolarData, jsReduceAdd, sampleSP, sampleDerived, round_eq],
   c6_annualSunshine_spec sampleSP "A" sampleDerived
     (by norm_num [deriveSolarData, jsReduceAdd, sampleSP, sampleDerived, round_eq])⟩

/-- C7: for every solar-provider payload the derived `yearlyGeneration` is
the direct product of the three provider fields, matching the spec formula
(units anomaly preserved as in the source). -/
theorem c7_yearlyGeneration_spec (sp : SolarPotential) (fa : String)
    (d : SolarData) (h : deriveSolarData sp fa = .ok d) :
    d.yearlyGeneration = spec_yearlyGenerationKWh sp.maxArrayPanelsCount
      sp.panelCapacityWatts sp.yearlyEnergyDcKwh := by
  unfold deriveSolarData at h
  cases hq : jsReduceAdd sp.sunshineQuantiles with
  | error m => simp [hq] at h
  | ok t =>
    simp only [hq, Except.ok.injEq] at h
    subst h
    rfl

/-- Witness for C7 at `sampleSP`. -/
theorem c7_witness :
    deriveSolarData sampleSP "A" = .ok sampleDerived ∧
    sampleDerived.yearlyGeneration = spec_yearlyGenerationKWh
      sampleSP.maxArrayPanelsCount sampleSP.panelCapacityWatts
      sampleSP.yearlyEnergyDcKwh :=
  ⟨by norm_num [deriveSolarData, jsReduceAdd, sampleSP, sampleDerived, round_eq],
   c7_yearlyGeneration_spec sampleSP "A" sampleDerived
     (by norm_num [deriveSolarData, jsReduceAdd, sampleSP, sampleDerived, round_eq])⟩

/-- C10: an empty `sunshineQuantiles` list makes the reduce (and hence the
whole solar derivation) fail, so a full-pipeline submission that reaches
the solar step with such a payload terminates with `error` populated and
`solarData` still null — no record with an undefined sunshine value is
ever produced. -/
theorem c10_emptyQuantiles_error (sp : SolarPotential) (fa : String)
    (env : Env) (address : String) (s : PipelineState) (pd d : GeocodeData)
    (r : GeoResult) (rs : List GeoResult)
    (hq : sp.sunshineQuantiles = [])
    (h1 : jsTrim address ≠ "") (h2 : env.probeGeo = .ok pd)
    (h3 : pd.status ≠ "REQUEST_DENIED") (h4 : env.probeSolar = .ok ())
    (h5 : env.geocode = .ok d) (h6 : d.status = "OK")
    (h7 : d.results = r :: rs) (h8 : env.mapFail = false)
    (h9 : fetchOk env.mapStatus = true) (h10 : env.solar = .ok sp) :
    deriveSolarData sp fa = .error "Reduce of empty array with no initial value" ∧
    (AppMain.handleAddressSubmit env address s).1.error =
      some "Reduce of empty array with no initial value" ∧
    (AppMain.handleAddressSubmit env address s).1.solarData = none ∧
    (AppVerbose.handleAddressSubmit env address s).1.error =
      some "Reduce of empty array with no initial value" ∧
    (AppVerbose.handleAddressSubmit env address s).1.solarData = none := by
  refine ⟨by simp [deriveSolarData, jsReduceAdd, hq], ?_, ?_, ?_, ?_⟩ <;>
    simp [AppMain.handleAddressSubmit, AppMain.runBody, AppMain.verifyApiKeys,
      AppVerbose.handleAddressSubmit, AppVerbose.runBody,
      AppVerbose.verifyApiKeys, AppVerbose.catchMessage, Thrown.message,
      deriveSolarData, jsReduceAdd, h1, h2, h3, h4, h5, h6, h7, h8, h9, h10, hq]

/-- Solar payload with an empty quantile list. -/
def spEmptyQ : SolarPotential :=
  { sampleSP with sunshineQuantiles := [] }

/-- Environment whose solar endpoint returns `spEmptyQ`. -/
def envEmptyQ : Env :=
  { envOk with solar := .ok spEmptyQ }

/-- Witness for C10: a concrete submission whose solar payload has no
quantiles ends with the reduce error and no solar record. -/
theorem c10_witness :
    spEmptyQ.sunshineQuantiles = [] ∧ jsTrim "x" ≠ "" ∧
    (AppMain.handleAddressSubmit envEmptyQ "x" initState).1.error =
      some "Reduce of empty array with no initial value" ∧
    (AppMain.handleAddressSubmit envEmptyQ "x" initState).1.solarData = none :=
  ⟨rfl, by decide,
   (c10_emptyQuantiles_error spEmptyQ "A" envEmptyQ "x" initState probeGeoOk
      okGeo geoResult0 [] rfl (by decide) rfl (by decide) rfl rfl rfl rfl rfl
      (by decide) rfl).2.1,
   (c10_emptyQuantiles_error spEmptyQ "A" envEmptyQ "x" initState probeGeoOk
      okGeo geoResult0 [] rfl (by decide) rfl (by decide) rfl rfl rfl rfl rfl
      (by decide) rfl).2.2.1⟩

/-- C4: a geocoding response with status `ZERO_RESULTS` makes the
submission fail with the not-found message, and the request log stops at
the geocode request — no map-tile or solar request is issued. -/
theorem c4_zeroResults_notFound (env : Env) (address : String)
    (s : PipelineState) (pd d : GeocodeData)
    (h1 : jsTrim address ≠ "") (h2 : env.probeGeo = .ok pd)
    (h3 : pd.status ≠ "REQUEST_DENIED") (h4 : env.probeSolar = .ok ())
    (h5 : env.geocode = .ok d) (h6 : d.status = "ZERO_RESULTS") :
    (AppMain.handleAddressSubmit env address s).1.error =
      some "Address not found. Please check the address and try again." ∧
    (AppMain.handleAddressSubmit env address s).2 =
      [.probeGeocode, .probeSolar, .geocode (encodeURIComponent address)] ∧
    (AppVerbose.handleAddressSubmit env address s).1.error =
      some "Address not found. Please check the address and try again." ∧
    (AppVerbose.handleAddressSubmit env address s).2 =
      [.probeGeocode, .probeSolar, .geocode (encodeURIComponent address)] := by
  refine ⟨?_, ?_, ?_, ?_⟩ <;>
    simp [AppMain.handleAddressSubmit, AppMain.runBody, AppMain.verifyApiKeys,
      AppVerbose.handleAddressSubmit, AppVerbose.runBody,
      AppVerbose.verifyApiKeys, AppVerbose.catchMessage, Thrown.message,
      h1, h2, h3, h4, h5, h6]

/-- Geocoding response with zero results. -/
def zeroGeo : GeocodeData := { status := "ZERO_RESULTS", results := [] }

/-- Environment whose geocoder returns `ZERO_RESULTS`. -/
def envZero : Env := { envOk with geocode := .ok zeroGeo }

/-- Witness for C4 at a concrete zero-results environment. -/
theorem c4_witness :
    zeroGeo.status = "ZERO_RESULTS" ∧ jsTrim "x" ≠ "" ∧
    (AppMain.handleAddressSubmit envZero "x" initState).1.error =
      some "Address not found. Please check the address and try again." ∧
    (AppMain.handleAddressSubmit envZero "x" initState).2 =
      [.probeGeocode, .probeSolar, .geocode (encodeURIComponent "x")] :=
  ⟨rfl, by decide,
   (c4_zeroResults_notFound envZero "x" initState probeGeoOk zeroGeo
      (by decide) rfl (by decide) rfl rfl rfl).1,
   (c4_zeroResults_notFound envZero "x" initState probeGeoOk zeroGeo
      (by decide) rfl (by decide) rfl rfl rfl).2.1⟩

/-- C8: a non-2xx map-tile response fails the submission with the
map-image error message and leaves the map URL unset: in the full-pipeline
variants it stays at its reset value `""` (and no solar record exists); in
the mock variant it stays exactly what it was before the submission. -/
theorem c8_mapFetch_error (env : Env) (address : String) (s : PipelineState)
    (pd d : GeocodeData) (r : GeoResult) (rs : List GeoResult)
    (em : AppMock.Env) (sm : AppMock.State)
    (h1 : jsTrim address ≠ "") (h2 : env.probeGeo = .ok pd)
    (h3 : pd.status ≠ "REQUEST_DENIED") (h4 : env.probeSolar = .ok ())
    (h5 : env.geocode = .ok d) (h6 : d.status = "OK")
    (h7 : d.results = r :: rs) (h8 : env.mapFail = false)
    (h9 : fetchOk env.mapStatus = false)
    (hm1 : em.probeFail = false) (hm2 : fetchOk em.probeStatus = true)
    (hm3 : em.mapFail = false) (hm4 : fetchOk em.mapStatus = false) :
    (AppMain.handleAddressSubmit env address s).1.error =
      some "Failed to load map image" ∧
    (AppMain.handleAddressSubmit env address s).1.mapUrl = "" ∧
    (AppMain.handleAddressSubmit env address s).1.solarData = none ∧
    (AppVerbose.handleAddressSubmit env address s).1.error =
      some ("Failed to load map image: " ++ toString env.mapStatus ++ " "
        ++ env.mapStatusText) ∧
    (AppVerbose.handleAddressSubmit env address s).1.mapUrl = "" ∧
    (AppMock.handleAddressSubmit em address sm).1.error =
      some "Failed to load map image" ∧
    (AppMock.handleAddressSubmit em address sm).1.mapUrl = sm.mapUrl ∧
    (AppMock.handleAddressSubmit em address sm).1.solarData = sm.solarData := by
  refine ⟨?_, ?_, ?_, ?_, ?_, ?_, ?_, ?_⟩ <;>
    simp [AppMain.handleAddressSubmit, AppMain.runBody, AppMain.verifyApiKeys,
      AppVerbose.handleAddressSubmit, AppVerbose.runBody,
      AppVerbose.verifyApiKeys, AppVerbose.catchMessage, Thrown.message,
      AppMock.handleAddressSubmit, AppMock.verifyApiKey,
      h1, h2, h3, h4, h5, h6, h7, h8, h9, hm1, hm2, hm3, hm4]

/-- Environment whose map-tile fetch returns HTTP 404. -/
def envMap404 : Env :=
  { envOk with mapStatus := 404, mapStatusText := "Not Found" }

/-- Mock-variant environment whose map-tile fetch returns HTTP 404. -/
def envMockMap404 : AppMock.Env :=
  { probeFail := false, probeStatus := 200, mapFail := false, mapStatus := 404 }

/-- Witness for C8 at concrete 404 environments. -/
theorem c8_witness :
    fetchOk envMap404.mapStatus = false ∧
    (AppMain.handleAddressSubmit envMap404 "x" initState).1.error =
      some "Failed to load map image" ∧
    (AppMain.handleAddressSubmit envMap404 "x" initState).1.mapUrl = "" ∧
    (AppMock.handleAddressSubmit envMockMap404 "x" AppMock.initState).1.mapUrl =
      AppMock.initState.mapUrl :=
  ⟨by decide,
   (c8_mapFetch_error envMap404 "x" initState probeGeoOk okGeo geoResult0 []
      envMockMap404 AppMock.initState (by decide) rfl (by decide) rfl rfl rfl
      rfl rfl (by decide) rfl (by decide) rfl (by decide)).1,
   (c8_mapFetch_error envMap404 "x" initState probeGeoOk okGeo geoResult0 []
      envMockMap404 AppMock.initState (by decide) rfl (by decide) rfl rfl rfl
      rfl rfl (by decide) rfl (by decide) rfl (by decide)).2.1,
   (c8_mapFetch_error envMap404 "x" initState probeGeoOk okGeo geoResult0 []
      envMockMap404 AppMock.initState (by decide) rfl (by decide) rfl rfl rfl
      rfl rfl (by decide) rfl (by decide) rfl (by decide)).2.2.2.2.2.2.1⟩

/-- All-success environment for the mock variant. -/
def envMockOk : AppMock.Env :=
  { probeFail := false, probeStatus := 200, mapFail := false, mapStatus := 200 }

/-- Counterexample to C1: in the mock variant a whitespace-only address is
not rejected — the submission issues network requests and even completes
without any error (so no `ValidationError` and not zero network calls). -/
theorem c1_counterexample :
    jsTrim " " = "" ∧
    (AppMock.handleAddressSubmit envMockOk " " AppMock.initState).2 ≠ [] ∧
    (AppMock.handleAddressSubmit envMockOk " " AppMock.initState).1.error = none := by
  decide

/-- C1 (amended): in the two full-pipeline variants an empty or
whitespace-only address fails immediately with the validation message and
issues zero network requests, leaving no data populated. -/
theorem c1_validation_no_network (env : Env) (address : String)
    (s : PipelineState) (h : jsTrim address = "") :
    (AppMain.handleAddressSubmit env address s).1.error =
      some "Please enter a valid address" ∧
    (AppMain.handleAddressSubmit env address s).2 = [] ∧
    (AppMain.handleAddressSubmit env address s).1.solarData = none ∧
    (AppMain.handleAddressSubmit env address s).1.mapUrl = "" ∧
    (AppVerbose.handleAddressSubmit env address s).1.error =
      some "Please enter a valid address" ∧
    (AppVerbose.handleAddressSubmit env address s).2 = [] ∧
    (AppVerbose.handleAddressSubmit env address s).1.solarData = none ∧
    (AppVerbose.handleAddressSubmit env address s).1.mapUrl = "" := by
  refine ⟨?_, ?_, ?_, ?_, ?_, ?_, ?_, ?_⟩ <;>
    simp [AppMain.handleAddressSubmit, AppMain.runBody, Thrown.message,
      AppVerbose.handleAddressSubmit, AppVerbose.runBody,
      AppVerbose.catchMessage, h]

/-- Witness for C1 (amended) at the empty address. -/
theorem c1_witness :
    jsTrim "" = "" ∧
    (AppMain.handleAddressSubmit envOk "" initState).1.error =
      some "Please enter a valid address" ∧
    (AppMain.handleAddressSubmit envOk "" initState).2 = [] :=
  ⟨rfl,
   (c1_validation_no_network envOk "" initState rfl).1,
   (c1_validation_no_network envOk "" initState rfl).2.1⟩

/-- Environment in which everything up to the map succeeds and the solar
request fails at the network level. -/
def envSolarFail : Env := { envOk with solar := .reqError "Network Error" }

/-- Counterexample to C2: when the solar step fails after a successful map
fetch, the terminal state has `mapUrl` populated together with a populated
`error` — so `mapUrl` is not non-null only when `error` is null. -/
theorem c2_counterexample :
    (AppMain.handleAddressSubmit envSolarFail "x" initState).1.mapUrl ≠ "" ∧
    (AppMain.handleAddressSubmit envSolarFail "x" initState).1.error ≠ none := by
  decide

/-- Exclusivity of `solarData` and `error` in every terminal state of the
main variant. -/
theorem mainTerminal_exclusive (env : Env) (address : String)
    (s : PipelineState) :
    ((AppMain.handleAddressSubmit env address s).1.solarData ≠ none ∧
     (AppMain.handleAddressSubmit env address s).1.error = none) ∨
    ((AppMain.handleAddressSubmit env address s).1.solarData = none ∧
     (AppMain.handleAddressSubmit env address s).1.error ≠ none) := by
  unfold AppMain.handleAddressSubmit
  rcases hr : AppMain.runBody env address
      { loading := true, error := none, solarData := none, mapUrl := "" }
      with ⟨s2, th, log⟩
  have hc := mainRunBody_cases env address _ s2 th log hr
  dsimp only
  rw [hr]
  cases th with
  | none =>
    obtain ⟨d, hd⟩ := hc.2.1 rfl
    exact Or.inl (by simp [hd, hc.1])
  | some t =>
    exact Or.inr (by simp [hc.2.2 (by simp), hc.1])

/-- Exclusivity of `solarData` and `error` in every terminal state of the
verbose variant. -/
theorem verboseTerminal_exclusive (env : Env) (address : String)
    (s : PipelineState) :
    ((AppVerbose.handleAddressSubmit env address s).1.solarData ≠ none ∧
     (AppVerbose.handleAddressSubmit env address s).1.error = none) ∨
    ((AppVerbose.handleAddressSubmit env address s).1.solarData = none ∧
     (AppVerbose.handleAddressSubmit env address s).1.error ≠ none) := by
  unfold AppVerbose.handleAddressSubmit
  rcases hr : AppVerbose.runBody env address
      { loading := true, error := none, solarData := none, mapUrl := "" }
      with ⟨s2, th, log⟩
  have hc := verboseRunBody_cases env address _ s2 th log hr
  dsimp only
  rw [hr]
  cases th with
  | none =>
    obtain ⟨d, hd⟩ := hc.2.1 rfl
    exact Or.inl (by simp [hd, hc.1])
  | some t =>
    exact Or.inr (by simp [hc.2.2 (by simp), hc.1])

/-- C2 (amended): in the full-pipeline variants every terminal state —
whatever the prior state, so also across consecutive submissions — has
exactly one of `solarData` populated and `error` populated (and `solarData`
is non-null only when `error` is null). -/
theorem c2_terminal_exclusive (env : Env) (address : String)
    (s : PipelineState) :
    (((AppMain.handleAddressSubmit env address s).1.solarData ≠ none ∧
      (AppMain.handleAddressSubmit env address s).1.error = none) ∨
     ((AppMain.handleAddressSubmit env address s).1.solarData = none ∧
      (AppMain.handleAddressSubmit env address s).1.error ≠ none)) ∧
    (((AppVerbose.handleAddressSubmit env address s).1.solarData ≠ none ∧
      (AppVerbose.handleAddressSubmit env address s).1.error = none) ∨
     ((AppVerbose.handleAddressSubmit env address s).1.solarData = none ∧
      (AppVerbose.handleAddressSubmit env address s).1.error ≠ none)) :=
  ⟨mainTerminal_exclusive env address s,
   verboseTerminal_exclusive env address s⟩

/-- Mock-variant state left over by a prior successful submission. -/
def mockPrior : AppMock.State :=
  { loading := false, mapUrl := "u", solarData := some AppMock.mockSolarData,
    error := none }

/-- Mock-variant environment whose verification probe is rejected. -/
def envMockBad : AppMock.Env :=
  { probeFail := false, probeStatus := 403, mapFail := false, mapStatus := 200 }

/-- Counterexample to C3: the mock variant does not reset `solarData` and
`mapUrl` at the start of a submission — after a failing submission the
previous submission's values are still there, next to the new error. -/
theorem c3_counterexample :
    (AppMock.handleAddressSubmit envMockBad "x" mockPrior).1.solarData =
      some AppMock.mockSolarData ∧
    (AppMock.handleAddressSubmit envMockBad "x" mockPrior).1.mapUrl = "u" ∧
    (AppMock.handleAddressSubmit envMockBad "x" mockPrior).1.error ≠ none := by
  decide

/-- Loading is cleared at completion in the main variant. -/
theorem mainLoading_cleared (env : Env) (address : String)
    (s : PipelineState) :
    (AppMain.handleAddressSubmit env address s).1.loading = false := by
  unfold AppMain.handleAddressSubmit
  rcases hr : AppMain.runBody env address
      { loading := true, error := none, solarData := none, mapUrl := "" }
      with ⟨s2, th, log⟩
  dsimp only
  rw [hr]
  cases th <;> rfl

/-- Loading is cleared at completion in the verbose variant. -/
theorem verboseLoading_cleared (env : Env) (address : String)
    (s : PipelineState) :
    (AppVerbose.handleAddressSubmit env address s).1.loading = false := by
  unfold AppVerbose.handleAddressSubmit
  rcases hr : AppVerbose.runBody env address
      { loading := true, error := none, solarData := none, mapUrl := "" }
      with ⟨s2, th, log⟩
  dsimp only
  rw [hr]
  cases th <;> rfl

/-- Loading is cleared at completion in the mock variant. -/
theorem mockLoading_cleared (env : AppMock.Env) (address : String)
    (s : AppMock.State) :
    (AppMock.handleAddressSubmit env address s).1.loading = false := by
  unfold AppMock.handleAddressSubmit AppMock.verifyApiKey
  repeat' split
  all_goals rfl

/-- C3 (amended): the full-pipeline variants reset all four state cells at
the start of each submission, so their terminal state is independent of
the prior state (no value leaks between submissions); the mock variant
resets only `loading` and `error` (see the counterexample); in all three
variants `loading` is `false` at completion whatever the outcome. -/
theorem c3_reset_no_leak (env : Env) (address : String)
    (s s2 : PipelineState) (em : AppMock.Env) (sm : AppMock.State) :
    AppMain.handleAddressSubmit env address s =
      AppMain.handleAddressSubmit env address s2 ∧
    AppVerbose.handleAddressSubmit env address s =
      AppVerbose.handleAddressSubmit env address s2 ∧
    (AppMain.handleAddressSubmit env address s).1.loading = false ∧
    (AppVerbose.handleAddressSubmit env address s).1.loading = false ∧
    (AppMock.handleAddressSubmit em address sm).1.loading = false :=
  ⟨rfl, rfl, mainLoading_cleared env address s,
   verboseLoading_cleared env address s,
   mockLoading_cleared em address sm⟩

/-- The request log of a main-variant submission is exactly the log of
its body run from the reset state. -/
theorem mainSubmit_log_eq (env : Env) (address : String)
    (s : PipelineState) :
    (AppMain.handleAddressSubmit env address s).2 =
      (AppMain.runBody env address
        { loading := true, error := none, solarData := none, mapUrl := "" }).2.2 := by
  unfold AppMain.handleAddressSubmit
  rcases hr : AppMain.runBody env address
      { loading := true, error := none, solarData := none, mapUrl := "" }
      with ⟨s2, th, log⟩
  dsimp only
  rw [hr]
  cases th <;> rfl

/-- The request log of a verbose-variant submission is exactly the log of
its body run from the reset state. -/
theorem verboseSubmit_log_eq (env : Env) (address : String)
    (s : PipelineState) :
    (AppVerbose.handleAddressSubmit env address s).2 =
      (AppVerbose.runBody env address
        { loading := true, error := none, solarData := none, mapUrl := "" }).2.2 := by
  unfold AppVerbose.handleAddressSubmit
  rcases hr : AppVerbose.runBody env address
      { loading := true, error := none, solarData := none, mapUrl := "" }
      with ⟨s2, th, log⟩
  dsimp only
  rw [hr]
  cases th <;> rfl

/-- Whenever validation and the credential probes pass, the body of the
main variant issues a geocoding request carrying the raw address,
URL-escaped. -/
theorem mainRunBody_geocode_mem (env : Env) (address : String)
    (s : PipelineState) (pd : GeocodeData)
    (h1 : jsTrim address ≠ "") (h2 : env.probeGeo = .ok pd)
    (h3 : pd.status ≠ "REQUEST_DENIED") (h4 : env.probeSolar = .ok ()) :
    Req.geocode (encodeURIComponent address) ∈
      (AppMain.runBody env address s).2.2 := by
  simp [AppMain.runBody, AppMain.verifyApiKeys, h1, h2, h3, h4]
  repeat' split
  all_goals try simp

/-- Whenever validation and the credential probes pass, the body of the
verbose variant issues a geocoding request carrying the raw address,
URL-escaped. -/
theorem verboseRunBody_geocode_mem (env : Env) (address : String)
    (s : PipelineState) (pd : GeocodeData)
    (h1 : jsTrim address ≠ "") (h2 : env.probeGeo = .ok pd)
    (h3 : pd.status ≠ "REQUEST_DENIED") (h4 : env.probeSolar = .ok ()) :
    Req.geocode (encodeURIComponent address) ∈
      (AppVerbose.runBody env address s).2.2 := by
  simp [AppVerbose.runBody, AppVerbose.verifyApiKeys, h1, h2, h3, h4]
  repeat' split
  all_goals try simp

/-- Counterexample to C9: for the address `" a"` the geocoding request
carries `"%20a"` — the URL-escape of the raw input — and not `"a"`, the
URL-escape of the trimmed input the claim prescribes. -/
theorem c9_counterexample :
    encodeURIComponent (jsTrim " a") = "a" ∧
    Req.geocode "a" ∉ (AppMain.handleAddressSubmit envOk " a" initState).2 ∧
    Req.geocode "%20a" ∈ (AppMain.handleAddressSubmit envOk " a" initState).2 := by
  decide

/-- C9 (amended): the address is trimmed only for the emptiness check; the
geocoding request of both full-pipeline variants carries the raw,
untrimmed input, URL-escaped. -/
theorem c9_raw_address_sent (env : Env) (address : String)
    (s : PipelineState) (pd : GeocodeData)
    (h1 : jsTrim address ≠ "") (h2 : env.probeGeo = .ok pd)
    (h3 : pd.status ≠ "REQUEST_DENIED") (h4 : env.probeSolar = .ok ()) :
    Req.geocode (encodeURIComponent address) ∈
      (AppMain.handleAddressSubmit env address s).2 ∧
    Req.geocode (encodeURIComponent address) ∈
      (AppVerbose.handleAddressSubmit env address s).2 := by
  rw [mainSubmit_log_eq, verboseSubmit_log_eq]
  exact ⟨mainRunBody_geocode_mem env address _ pd h1 h2 h3 h4,
    verboseRunBody_geocode_mem env address _ pd h1 h2 h3 h4⟩

/-- Witness for C9 (amended) at the address `" a"` in the all-success
environment. -/
theorem c9_witness :
    jsTrim " a" ≠ "" ∧
    Req.geocode (encodeURIComponent " a") ∈
      (AppMain.handleAddressSubmit envOk " a" initState).2 :=
  ⟨by decide,
   (c9_raw_address_sent envOk " a" initState probeGeoOk (by decide) rfl
      (by decide) rfl).1⟩
